import Mathlib

/-!
Shallow embedding of the client-side state/data layer of the Blabla
voice-cloning front-end: the HTTP gateway error normalization and the file
intake validator (`src/frontend/src/utils/api.ts`), the generation history
store (`src/frontend/src/store/useTTSStore.ts`), the settings store
(`src/frontend/src/store/useSettingsStore.ts`) and the voice registry store
(`src/frontend/src/pages/VoiceClonePage.tsx`, `useVoiceStore`).

Asynchronous gateway calls are embedded by passing the gateway's outcome as
an `Except` value into the store operation; a store operation that rethrows
is embedded as returning the pair of the new state and the propagated
outcome.  JavaScript truthiness on an optionally-present string field
(`if (x)` where `x : string | undefined`) is embedded as `truthyStr`:
`none` (absent) and `some ""` (empty string) are falsy, everything else
truthy.
-/

/-- The body of a failed HTTP response (`error.response.data` in the
source): a JSON object optionally carrying `detail` and `message` string
fields. -/
structure APIResponseData where
  detail : Option String
  message : Option String
deriving DecidableEq

/-- A failed HTTP response (`error.response`), carrying an optional body. -/
structure APIResponse where
  data : Option APIResponseData
deriving DecidableEq

/-- An arbitrary failure value reaching `handleAPIError`: an optional
response (absent for pure network/timeout errors) and the underlying
error's own optional `message`. -/
structure APIFailure where
  response : Option APIResponse
  message : Option String
deriving DecidableEq

/-- JavaScript truthiness of an optionally-present string: `undefined`
(here `none`) and the empty string are falsy. -/
def truthyStr : Option String → Bool
  | none => false
  | some s => !(s == "")

/-- The optional chain `error.response?.data?.detail`. -/
def respDetail (e : APIFailure) : Option String :=
  (e.response.bind APIResponse.data).bind APIResponseData.detail

/-- The optional chain `error.response?.data?.message`. -/
def respMessage (e : APIFailure) : Option String :=
  (e.response.bind APIResponse.data).bind APIResponseData.message

/-- The fixed generic fallback message of `handleAPIError`. -/
def unknownErrorMsg : String := "Ein unbekannter Fehler ist aufgetreten"

/-- `handleAPIError` from `src/frontend/src/utils/api.ts` (lines 172-186):
ordered fallback over the truthiness checks `error.response?.data?.detail`,
`error.response?.data?.message`, `error.message`, else the generic
fallback string. -/
def handleAPIError (e : APIFailure) : String :=
  if truthyStr (respDetail e) then (respDetail e).getD ""
  else if truthyStr (respMessage e) then (respMessage e).getD ""
  else if truthyStr e.message then e.message.getD ""
  else unknownErrorMsg

/-- A concrete failure whose response body has a `detail` field holding the
empty string, and a `message` field "M". -/
def emptyDetailFailure : APIFailure :=
  { response := some { data := some { detail := some "", message := some "M" } },
    message := none }

/-- The browser `File` value as the validator consumes it: a name, a MIME
type string and a byte size.  `validateAudioFile` reads only `type` and
`size`. -/
structure File where
  name : String
  type : String
  size : Nat
deriving DecidableEq

/-- The allow-list of audio MIME types (`validTypes` in the source). -/
def validTypes : List String :=
  ["audio/wav", "audio/mp3", "audio/mpeg", "audio/ogg", "audio/webm"]

/-- The size ceiling (`maxSize` in the source): 50 MiB. -/
def maxSize : Nat := 50 * 1024 * 1024

/-- The "file type not allowed" reason string. -/
def typeErrorMsg : String := "Nur Audio-Dateien sind erlaubt (WAV, MP3, OGG, WebM)"

/-- The "file too large" reason string. -/
def sizeErrorMsg : String := "Datei ist zu groß (max. 50MB)"

/-- The result record `{valid: boolean, error?: string}`. -/
structure ValidationResult where
  valid : Bool
  error : Option String
deriving DecidableEq

/-- `validateAudioFile` from `src/frontend/src/utils/api.ts` (lines
111-130): reject a MIME type outside the allow-list, then reject a size
above the ceiling, else accept. -/
def validateAudioFile (file : File) : ValidationResult :=
  if !(validTypes.contains file.type) then
    { valid := false, error := some typeErrorMsg }
  else if file.size > maxSize then
    { valid := false, error := some sizeErrorMsg }
  else
    { valid := true, error := none }

/-- A successful TTS generation result (`TTSResponse` in `types.ts`).  The
JSON `duration` number is embedded as a `Nat`; no store logic reads it. -/
structure TTSResponse where
  audio_url : String
  filename : String
  duration : Nat
  text : String
  voice_id : String
  generated_at : String
deriving DecidableEq

/-- The state slice of `useTTSStore`: the in-flight flag, the most recent
result and the history (most recent first). -/
structure TTSState where
  isGenerating : Bool
  currentAudio : Option TTSResponse
  history : List TTSResponse
deriving DecidableEq

/-- The store's initial state: not generating, no current audio, empty
history. -/
def initialTTSState : TTSState :=
  { isGenerating := false, currentAudio := none, history := [] }

/-- `generateSpeech` from `src/frontend/src/store/useTTSStore.ts` (lines
14-38).  The awaited gateway outcome is passed in as `gw`.  The operation
first sets `isGenerating`; on success it sets the response as current,
prepends it to `history.slice(0, 19)` and clears `isGenerating`; on failure
it clears `isGenerating` and rethrows (the second component). -/
def generateSpeech (gw : Except APIFailure TTSResponse) (s : TTSState) :
    TTSState × Except APIFailure TTSResponse :=
  let s1 : TTSState := { s with isGenerating := true }
  match gw with
  | .ok response =>
      ({ s1 with
          currentAudio := some response,
          history := response :: s1.history.take 19,
          isGenerating := false },
        .ok response)
  | .error e => ({ s1 with isGenerating := false }, .error e)

/-- `clearHistory` from `useTTSStore.ts` (lines 40-43): empties the history
and clears the current result. -/
def clearHistory (s : TTSState) : TTSState :=
  { s with history := [], currentAudio := none }

/-- The persistence slice of `useTTSStore` (`partialize`, lines 47-49):
only the first 10 history entries are persisted. -/
def partialize (s : TTSState) : List TTSResponse :=
  s.history.take 10

/-- `n` successive successful generations, applied in call order: each
element of `resps` is the gateway response of one `generateSpeech` call. -/
def runGenerations (resps : List TTSResponse) (s : TTSState) : TTSState :=
  resps.foldl (fun st r => (generateSpeech (Except.ok r) st).fst) s

/-- A language catalog entry (`Language` in `types.ts`; named `LanguageEntry` here to avoid the library name). -/
structure LanguageEntry where
  code : String
  name : String
deriving DecidableEq

/-- The hardcoded fallback catalog of `fetchLanguages`
(`src/frontend/src/store/useSettingsStore.ts`, lines 34-41). -/
def fallbackLanguages : List LanguageEntry :=
  [ { code := "de", name := "Deutsch" },
    { code := "en", name := "English" },
    { code := "es", name := "Español" },
    { code := "fr", name := "Français" },
    { code := "it", name := "Italiano" },
    { code := "pt", name := "Português" } ]

/-- `fetchLanguages` from `useSettingsStore.ts` (lines 25-44), restricted
to the `languages` field it updates: on success the fetched list replaces
the prior one; on failure the fixed fallback list is substituted and no
error escapes (the function returns the new field value in both cases). -/
def fetchLanguages (gw : Except APIFailure (List LanguageEntry))
    (priorLanguages : List LanguageEntry) : List LanguageEntry :=
  match gw with
  | .ok response => response
  | .error _ => fallbackLanguages

/-- Lifecycle status of a voice (`Voice.status` in `types.ts`). -/
inductive VoiceStatus where
  | processing
  | ready
  | error
  | training
deriving DecidableEq

/-- A voice record (`Voice` in `types.ts`); the optional numeric `duration`
is embedded as a `Nat`. -/
structure Voice where
  id : String
  name : String
  description : String
  status : VoiceStatus
  created_at : String
  language : Option String
  sample_count : Nat
  duration : Option Nat
  preview_url : Option String
deriving DecidableEq

/-- The state slice of `useVoiceStore`
(`src/frontend/src/pages/VoiceClonePage.tsx`, lines 267-271). -/
structure VoiceState where
  voices : List Voice
  selectedVoice : Option Voice
  isLoading : Bool
  error : Option String
deriving DecidableEq

/-- The synchronous prefix of `fetchVoices` (line 274): set the loading
flag and clear the error before awaiting the gateway. -/
def fetchVoicesBegin (s : VoiceState) : VoiceState :=
  { s with isLoading := true, error := none }

/-- `fetchVoices` from `VoiceClonePage.tsx` (lines 273-284): on success
replace the whole voice list and drop the loading flag; on failure record
the normalized error message and drop the loading flag. -/
def fetchVoices (gw : Except APIFailure (List Voice)) (s : VoiceState) :
    VoiceState :=
  let s1 := fetchVoicesBegin s
  match gw with
  | .ok voices => { s1 with voices := voices, isLoading := false }
  | .error e => { s1 with error := some (handleAPIError e), isLoading := false }

/-- `deleteVoice` from `VoiceClonePage.tsx` (lines 290-312).  On gateway
success the entries whose id equals `voiceId` are filtered out and, when
the selected voice carried that id, the selection is cleared; on failure
nothing is mutated and the error is rethrown. -/
def deleteVoice (gw : Except APIFailure Unit) (voiceId : String)
    (s : VoiceState) : VoiceState × Except APIFailure Unit :=
  match gw with
  | .ok _ =>
      let s1 := { s with voices := s.voices.filter (fun v => v.id != voiceId) }
      let s2 :=
        match s1.selectedVoice with
        | some v => if v.id == voiceId then { s1 with selectedVoice := none } else s1
        | none => s1
      (s2, .ok ())
  | .error e => (s, .error e)

/-- The gateway's clone-voice response body `{voice_id, status, message}`. -/
structure CloneResponse where
  voice_id : String
  status : String
  message : String
deriving DecidableEq

/-- A clone request `{name, description, files}` (`VoiceCloneRequest` in
`types.ts`). -/
structure VoiceCloneRequest where
  name : String
  description : String
  files : List File
deriving DecidableEq

/-- `cloneVoice` from `VoiceClonePage.tsx` (lines 314-345).  `now` is the
client-generated `new Date().toISOString()` timestamp.  On success a
provisional `processing` voice built from the request is prepended and the
server's voice id is returned; on failure the normalized error is recorded
and the error rethrown. -/
def cloneVoice (gw : Except APIFailure CloneResponse) (now : String)
    (request : VoiceCloneRequest) (s : VoiceState) :
    VoiceState × Except APIFailure String :=
  let s1 := { s with isLoading := true, error := none }
  match gw with
  | .ok response =>
      let newVoice : Voice :=
        { id := response.voice_id,
          name := request.name,
          description := request.description,
          status := VoiceStatus.processing,
          created_at := now,
          language := none,
          sample_count := request.files.length,
          duration := none,
          preview_url := none }
      ({ s1 with voices := newVoice :: s1.voices, isLoading := false },
        .ok response.voice_id)
  | .error e =>
      ({ s1 with error := some (handleAPIError e), isLoading := false },
        .error e)

/-- Truthiness of a present string is its non-emptiness. -/
theorem truthyStr_some_eq_true {s : String} (h : s ≠ "") :
    truthyStr (some s) = true := by
  simp [truthyStr, h]

/-- C1 counterexample: a failure whose response body carries a `detail`
field holding the empty string and a `message` field "M".  The claim as
stated requires the detail string (here `""`) to be returned, but
`handleAPIError` skips the falsy empty detail and returns "M". -/
theorem handleAPIError_empty_detail_counterexample :
    respDetail emptyDetailFailure = some "" ∧
    handleAPIError emptyDetailFailure = "M" ∧
    ("M" : String) ≠ "" := by
  refine ⟨rfl, rfl, ?_⟩
  decide

/-- C1 (amended): `handleAPIError` returns, in order, a present non-empty
`detail` field of the response body; otherwise a present non-empty
`message` field of the body; otherwise a present non-empty message of the
underlying error; otherwise the fixed generic fallback string. -/
theorem handleAPIError_ordered_fallback (e : APIFailure) :
    (∀ s, respDetail e = some s → s ≠ "" → handleAPIError e = s) ∧
    (truthyStr (respDetail e) = false →
      ∀ s, respMessage e = some s → s ≠ "" → handleAPIError e = s) ∧
    (truthyStr (respDetail e) = false → truthyStr (respMessage e) = false →
      ∀ s, e.message = some s → s ≠ "" → handleAPIError e = s) ∧
    (truthyStr (respDetail e) = false → truthyStr (respMessage e) = false →
      truthyStr e.message = false → handleAPIError e = unknownErrorMsg) := by
  refine ⟨?_, ?_, ?_, ?_⟩
  · intro s hs hne
    simp [handleAPIError, hs, truthyStr_some_eq_true hne]
  · intro hd s hs hne
    simp [handleAPIError, hd, hs, truthyStr_some_eq_true hne]
  · intro hd hm s hs hne
    simp [handleAPIError, hd, hm, hs, truthyStr_some_eq_true hne]
  · intro hd hm hmsg
    simp [handleAPIError, hd, hm, hmsg]

/-- A failure carrying a response body with both fields and an error
message: the first branch applies. -/
def detailFailure : APIFailure :=
  { response := some { data := some { detail := some "D", message := some "M" } },
    message := some "timeout" }

/-- A failure whose body has no usable `detail`: the second branch
applies. -/
def messageFailure : APIFailure :=
  { response := some { data := some { detail := none, message := some "M" } },
    message := some "timeout" }

/-- A transport failure with no response at all: the third branch
applies. -/
def timeoutFailure : APIFailure := { response := none, message := some "timeout" }

/-- A failure with no identifiable message at all: the fallback branch
applies. -/
def silentFailure : APIFailure := { response := none, message := none }

/-- Witness for the amended C1, exercising all four branches at concrete
failures. -/
theorem handleAPIError_ordered_fallback_witness :
    handleAPIError detailFailure = "D" ∧
    handleAPIError messageFailure = "M" ∧
    handleAPIError timeoutFailure = "timeout" ∧
    handleAPIError silentFailure = unknownErrorMsg :=
  ⟨(handleAPIError_ordered_fallback detailFailure).1 "D" rfl (by decide),
   (handleAPIError_ordered_fallback messageFailure).2.1 rfl "M" rfl (by decide),
   (handleAPIError_ordered_fallback timeoutFailure).2.2.1 rfl rfl "timeout" rfl (by decide),
   (handleAPIError_ordered_fallback silentFailure).2.2.2 rfl rfl rfl⟩

/-- C2: `validateAudioFile` rejects any MIME type outside the fixed
allow-list with the type reason; rejects an allowed type whose size
exceeds 50 MiB with the size reason; accepts everything else; and depends
only on the file's `type` and `size`. -/
theorem validateAudioFile_spec (f : File) :
    validTypes = ["audio/wav", "audio/mp3", "audio/mpeg", "audio/ogg", "audio/webm"] ∧
    maxSize = 50 * 1024 * 1024 ∧
    (validTypes.contains f.type = false →
      validateAudioFile f = { valid := false, error := some typeErrorMsg }) ∧
    (validTypes.contains f.type = true → f.size > maxSize →
      validateAudioFile f = { valid := false, error := some sizeErrorMsg }) ∧
    (validTypes.contains f.type = true → f.size ≤ maxSize →
      validateAudioFile f = { valid := true, error := none }) ∧
    (∀ g : File, f.type = g.type → f.size = g.size →
      validateAudioFile f = validateAudioFile g) := by
  refine ⟨rfl, rfl, ?_, ?_, ?_, ?_⟩
  · intro h
    unfold validateAudioFile
    rw [h]
    rfl
  · intro h hs
    unfold validateAudioFile
    rw [h]
    show (if f.size > maxSize then _ else _) = _
    exact if_pos hs
  · intro h hs
    unfold validateAudioFile
    rw [h]
    show (if f.size > maxSize then _ else _) = _
    exact if_neg (Nat.not_lt.mpr hs)
  · intro g ht hsz
    unfold validateAudioFile
    rw [ht, hsz]

/-- Witness for C2 at one concrete file per branch. -/
theorem validateAudioFile_spec_witness :
    validateAudioFile { name := "a.txt", type := "text/plain", size := 10 } =
      { valid := false, error := some typeErrorMsg } ∧
    validateAudioFile { name := "a.wav", type := "audio/wav", size := 52428801 } =
      { valid := false, error := some sizeErrorMsg } ∧
    validateAudioFile { name := "a.wav", type := "audio/wav", size := 1000 } =
      { valid := true, error := none } :=
  ⟨(validateAudioFile_spec { name := "a.txt", type := "text/plain", size := 10 }).2.2.1
      (by decide),
   (validateAudioFile_spec { name := "a.wav", type := "audio/wav", size := 52428801 }).2.2.2.1
      (by decide) (by decide),
   (validateAudioFile_spec { name := "a.wav", type := "audio/wav", size := 1000 }).2.2.2.2.1
      (by decide) (by decide)⟩

/-- C10: when the MIME type is disallowed and the size also exceeds the
ceiling, the type reason wins — the type check strictly precedes the size
check. -/
theorem validateAudioFile_type_check_precedes_size (f : File)
    (htype : validTypes.contains f.type = false) (hsize : f.size > maxSize) :
    validateAudioFile f = { valid := false, error := some typeErrorMsg } ∧
    validateAudioFile f ≠ { valid := false, error := some sizeErrorMsg } := by
  have h1 : validateAudioFile f = { valid := false, error := some typeErrorMsg } := by
    unfold validateAudioFile
    rw [htype]
    rfl
  refine ⟨h1, ?_⟩
  rw [h1]
  intro hcontra
  have herr : some typeErrorMsg = some sizeErrorMsg :=
    congrArg ValidationResult.error hcontra
  have : typeErrorMsg = sizeErrorMsg := Option.some.inj herr
  exact absurd this (by decide)

/-- Witness for C10: an oversized file of a disallowed type gets the type
reason. -/
theorem validateAudioFile_type_check_precedes_size_witness :
    validateAudioFile { name := "big.txt", type := "text/plain", size := 52428801 } =
      { valid := false, error := some typeErrorMsg } ∧
    validateAudioFile { name := "big.txt", type := "text/plain", size := 52428801 } ≠
      { valid := false, error := some sizeErrorMsg } :=
  validateAudioFile_type_check_precedes_size
    { name := "big.txt", type := "text/plain", size := 52428801 }
    (by decide) (by decide)

/-- Prepending through a 19-element-truncated tail and then capping at 20
is the same as capping the untruncated prepend at 20. -/
theorem take_twenty_cons_take {α : Type} (pre : List α) (x : α) (l : List α) :
    (pre ++ x :: l.take 19).take 20 = (pre ++ x :: l).take 20 := by
  rw [List.take_append_eq_append_take, List.take_append_eq_append_take]
  congr 1
  cases h20 : 20 - pre.length with
  | zero => rfl
  | succ m =>
      have hm19 : m ≤ 19 := by omega
      rw [List.take_succ_cons, List.take_succ_cons, List.take_take,
        Nat.min_eq_left hm19]

/-- Invariant of successive successful generations: starting from a state
whose history is within the cap, the history after the run is the
20-capped, most-recent-first concatenation. -/
theorem runGenerations_history (resps : List TTSResponse) :
    ∀ s : TTSState, s.history.length ≤ 20 →
      (runGenerations resps s).history = (resps.reverse ++ s.history).take 20 := by
  induction resps with
  | nil =>
      intro s h
      simp [runGenerations, List.take_of_length_le h]
  | cons r rest ih =>
      intro s h
      have hstep : (generateSpeech (Except.ok r) s).fst.history
          = r :: s.history.take 19 := rfl
      have hlen : (generateSpeech (Except.ok r) s).fst.history.length ≤ 20 := by
        rw [hstep]
        simp [List.length_take]
      have hrun : (runGenerations (r :: rest) s).history
          = (runGenerations rest (generateSpeech (Except.ok r) s).fst).history := rfl
      rw [hrun, ih _ hlen, hstep, take_twenty_cons_take,
        List.reverse_cons, List.append_assoc, List.singleton_append]

/-- C3: starting from the empty history, `N` successive successful
generations (here `N > 10`) leave the in-memory history equal to the
last-in-first-out reversal of the call sequence capped at 20 — so exactly
`min N 20` entries, most recent first — while the persisted slice
(`partialize`) is exactly the 10 most recent entries. -/
theorem generateSpeech_history_caps (resps : List TTSResponse)
    (h : 10 < resps.length) :
    (runGenerations resps initialTTSState).history = resps.reverse.take 20 ∧
    (runGenerations resps initialTTSState).history.length = min resps.length 20 ∧
    partialize (runGenerations resps initialTTSState) = resps.reverse.take 10 ∧
    (partialize (runGenerations resps initialTTSState)).length = 10 := by
  have h0 : initialTTSState.history.length ≤ 20 := by simp [initialTTSState]
  have hh : (runGenerations resps initialTTSState).history = resps.reverse.take 20 := by
    rw [runGenerations_history resps initialTTSState h0]
    simp [initialTTSState]
  refine ⟨hh, ?_, ?_, ?_⟩
  · rw [hh, List.length_take, List.length_reverse]
    omega
  · simp only [partialize]
    rw [hh, List.take_take]
    norm_num
  · simp only [partialize]
    rw [hh, List.take_take, List.length_take, List.length_reverse]
    omega

/-- A synthetic generation result used by concrete witnesses. -/
def mkResp (i : Nat) : TTSResponse :=
  { audio_url := toString i, filename := toString i, duration := i,
    text := "t", voice_id := "v", generated_at := "now" }

/-- Eleven distinct synthetic generation results. -/
def elevenResponses : List TTSResponse := (List.range 11).map mkResp

/-- Witness for C3 at a concrete run of 11 successful generations. -/
theorem generateSpeech_history_caps_witness :
    10 < elevenResponses.length ∧
    ((runGenerations elevenResponses initialTTSState).history =
        elevenResponses.reverse.take 20 ∧
      (runGenerations elevenResponses initialTTSState).history.length =
        min elevenResponses.length 20 ∧
      partialize (runGenerations elevenResponses initialTTSState) =
        elevenResponses.reverse.take 10 ∧
      (partialize (runGenerations elevenResponses initialTTSState)).length = 10) :=
  ⟨by decide, generateSpeech_history_caps elevenResponses (by decide)⟩

/-- C6: on gateway failure `generateSpeech` clears the in-flight flag,
leaves the history and the current audio untouched, and propagates the
very same error to the caller. -/
theorem generateSpeech_failure_path (e : APIFailure) (s : TTSState) :
    (generateSpeech (Except.error e) s).fst.isGenerating = false ∧
    (generateSpeech (Except.error e) s).fst.history = s.history ∧
    (generateSpeech (Except.error e) s).fst.currentAudio = s.currentAudio ∧
    (generateSpeech (Except.error e) s).snd = Except.error e :=
  ⟨rfl, rfl, rfl, rfl⟩

/-- C9: `clearHistory` followed by one successful generation leaves the
history holding exactly that one result, which is also the current
audio. -/
theorem clearHistory_then_generateSpeech (s : TTSState) (r : TTSResponse) :
    (generateSpeech (Except.ok r) (clearHistory s)).fst.history = [r] ∧
    (generateSpeech (Except.ok r) (clearHistory s)).fst.currentAudio = some r :=
  ⟨rfl, rfl⟩

/-- C7: `fetchLanguages` replaces the language list with the fetched one
on success, and on failure sets it to exactly the fixed 6-entry fallback,
whose codes are `de, en, es, fr, it, pt` in that order; no error escapes
in either case (the function is total on both outcomes). -/
theorem fetchLanguages_spec (prior : List LanguageEntry)
    (gw : Except APIFailure (List LanguageEntry)) :
    (∀ ls, gw = Except.ok ls → fetchLanguages gw prior = ls) ∧
    (∀ e, gw = Except.error e →
      fetchLanguages gw prior = fallbackLanguages ∧
      fallbackLanguages.map LanguageEntry.code = ["de", "en", "es", "fr", "it", "pt"] ∧
      fallbackLanguages.length = 6) := by
  refine ⟨?_, ?_⟩
  · intro ls h
    subst h
    rfl
  · intro e h
    subst h
    exact ⟨rfl, rfl, rfl⟩

/-- Witness for C7 at one concrete success and one concrete failure. -/
theorem fetchLanguages_spec_witness :
    fetchLanguages (Except.ok [{ code := "xx", name := "X" }]) fallbackLanguages =
      [{ code := "xx", name := "X" }] ∧
    fetchLanguages (Except.error { response := none, message := none })
      [{ code := "xx", name := "X" }] = fallbackLanguages :=
  ⟨(fetchLanguages_spec fallbackLanguages (Except.ok [{ code := "xx", name := "X" }])).1
      [{ code := "xx", name := "X" }] rfl,
   ((fetchLanguages_spec [{ code := "xx", name := "X" }]
      (Except.error { response := none, message := none })).2
      { response := none, message := none } rfl).1⟩

/-- C8: `fetchVoices` sets the loading flag (and clears the error) before
awaiting; on success it replaces the whole voice list, drops the loading
flag and leaves the error cleared; on failure it keeps the previous voice
list, records the normalized error message and drops the loading flag. -/
theorem fetchVoices_spec (gw : Except APIFailure (List Voice)) (s : VoiceState) :
    (fetchVoicesBegin s).isLoading = true ∧
    (fetchVoicesBegin s).error = none ∧
    (∀ vs, gw = Except.ok vs →
      fetchVoices gw s =
        { s with voices := vs, isLoading := false, error := none }) ∧
    (∀ e, gw = Except.error e →
      (fetchVoices gw s).voices = s.voices ∧
      (fetchVoices gw s).error = some (handleAPIError e) ∧
      (fetchVoices gw s).isLoading = false) := by
  refine ⟨rfl, rfl, ?_, ?_⟩
  · intro vs h
    subst h
    rfl
  · intro e h
    subst h
    exact ⟨rfl, rfl, rfl⟩

/-- A concrete ready voice used by the voice-store witnesses. -/
def sampleVoice : Voice :=
  { id := "v1", name := "Alice", description := "first",
    status := VoiceStatus.ready, created_at := "2024-01-01T00:00:00Z",
    language := none, sample_count := 1, duration := none, preview_url := none }

/-- A second concrete voice with a different id. -/
def otherVoice : Voice :=
  { id := "v2", name := "Bob", description := "second",
    status := VoiceStatus.ready, created_at := "2024-01-02T00:00:00Z",
    language := none, sample_count := 2, duration := none, preview_url := none }

/-- A concrete voice-store state holding both voices, the first one
selected. -/
def sampleVoiceState : VoiceState :=
  { voices := [sampleVoice, otherVoice], selectedVoice := some sampleVoice,
    isLoading := false, error := none }

/-- Witness for C8 at one concrete success and one concrete failure. -/
theorem fetchVoices_spec_witness :
    fetchVoices (Except.ok []) sampleVoiceState =
      { sampleVoiceState with voices := [], isLoading := false, error := none } ∧
    (fetchVoices (Except.error { response := none, message := some "down" })
        sampleVoiceState).voices = sampleVoiceState.voices ∧
    (fetchVoices (Except.error { response := none, message := some "down" })
        sampleVoiceState).error =
      some (handleAPIError { response := none, message := some "down" }) :=
  ⟨(fetchVoices_spec (Except.ok []) sampleVoiceState).2.2.1 [] rfl,
   ((fetchVoices_spec (Except.error { response := none, message := some "down" })
      sampleVoiceState).2.2.2 { response := none, message := some "down" } rfl).1,
   ((fetchVoices_spec (Except.error { response := none, message := some "down" })
      sampleVoiceState).2.2.2 { response := none, message := some "down" } rfl).2.1⟩

/-- C5: on gateway success `cloneVoice` prepends exactly one provisional
voice — status `processing`, name and description from the request, sample
count equal to the request's file count, the client-generated timestamp —
leaving every pre-existing entry as the tail; on failure the voice list is
untouched, the normalized error is recorded and the error propagated. -/
theorem cloneVoice_spec (gw : Except APIFailure CloneResponse) (now : String)
    (request : VoiceCloneRequest) (s : VoiceState) :
    (∀ resp, gw = Except.ok resp →
      (cloneVoice gw now request s).fst.voices =
        { id := resp.voice_id, name := request.name,
          description := request.description,
          status := VoiceStatus.processing, created_at := now,
          language := none, sample_count := request.files.length,
          duration := none, preview_url := none } :: s.voices ∧
      (cloneVoice gw now request s).fst.voices.length = s.voices.length + 1 ∧
      (cloneVoice gw now request s).fst.voices.tail = s.voices ∧
      (cloneVoice gw now request s).snd = Except.ok resp.voice_id) ∧
    (∀ e, gw = Except.error e →
      (cloneVoice gw now request s).fst.voices = s.voices ∧
      (cloneVoice gw now request s).fst.error = some (handleAPIError e) ∧
      (cloneVoice gw now request s).snd = Except.error e) := by
  refine ⟨?_, ?_⟩
  · intro resp h
    subst h
    exact ⟨rfl, rfl, rfl, rfl⟩
  · intro e h
    subst h
    exact ⟨rfl, rfl, rfl⟩

/-- The clone request of the spec's concrete example: name "X",
description "d", two files. -/
def sampleCloneRequest : VoiceCloneRequest :=
  { name := "X", description := "d",
    files := [ { name := "f1.wav", type := "audio/wav", size := 100 },
               { name := "f2.wav", type := "audio/wav", size := 200 } ] }

/-- Witness for C5: cloning with two files on a concrete state prepends
the provisional record with sample count 2. -/
theorem cloneVoice_spec_witness :
    (cloneVoice (Except.ok { voice_id := "nv", status := "processing", message := "ok" })
        "2024-03-01T00:00:00Z" sampleCloneRequest sampleVoiceState).fst.voices =
      { id := "nv", name := sampleCloneRequest.name,
        description := sampleCloneRequest.description,
        status := VoiceStatus.processing, created_at := "2024-03-01T00:00:00Z",
        language := none, sample_count := sampleCloneRequest.files.length,
        duration := none, preview_url := none } :: sampleVoiceState.voices ∧
    (cloneVoice (Except.ok { voice_id := "nv", status := "processing", message := "ok" })
        "2024-03-01T00:00:00Z" sampleCloneRequest sampleVoiceState).fst.voices.length =
      sampleVoiceState.voices.length + 1 ∧
    (cloneVoice (Except.ok { voice_id := "nv", status := "processing", message := "ok" })
        "2024-03-01T00:00:00Z" sampleCloneRequest sampleVoiceState).fst.voices.tail =
      sampleVoiceState.voices ∧
    (cloneVoice (Except.ok { voice_id := "nv", status := "processing", message := "ok" })
        "2024-03-01T00:00:00Z" sampleCloneRequest sampleVoiceState).snd =
      Except.ok ({ voice_id := "nv", status := "processing", message := "ok" } : CloneResponse).voice_id :=
  (cloneVoice_spec
      (Except.ok { voice_id := "nv", status := "processing", message := "ok" })
      "2024-03-01T00:00:00Z" sampleCloneRequest sampleVoiceState).1
    { voice_id := "nv", status := "processing", message := "ok" } rfl

/-- When exactly one entry of `l` carries `voiceId`, filtering the id out
shortens the list by exactly one. -/
theorem filter_ne_length_of_countP_eq_one (l : List Voice) (voiceId : String)
    (h : l.countP (fun v => v.id == voiceId) = 1) :
    (l.filter (fun v => v.id != voiceId)).length + 1 = l.length := by
  have h2 := List.length_eq_countP_add_countP
    (p := fun v : Voice => v.id == voiceId) (l := l)
  have h3 : List.countP (fun a : Voice => decide ¬(a.id == voiceId) = true) l
      = (l.filter (fun v => v.id != voiceId)).length := by
    rw [← List.countP_eq_length_filter]
    congr 1
    funext a
    by_cases ha : (a.id == voiceId) = true
    · simp [ha]
      exact eq_of_beq ha
    · simp [ha]
      exact fun heq => ha (by rw [heq]; exact beq_self_eq_true voiceId)
  omega

/-- C4: on gateway success `deleteVoice` keeps the surviving voices as an
in-order sublist, keeps every entry whose id differs from the deleted one,
removes every entry carrying that id — exactly one entry when the id
occurs exactly once — and clears the selection exactly when the selected
voice carried the deleted id; on gateway failure the store state is
returned identical and the error is propagated. -/
theorem deleteVoice_spec (gw : Except APIFailure Unit) (voiceId : String)
    (s : VoiceState) :
    (∀ u : Unit, gw = Except.ok u →
      ((deleteVoice gw voiceId s).fst.voices.Sublist s.voices ∧
        (∀ v ∈ s.voices, v.id ≠ voiceId → v ∈ (deleteVoice gw voiceId s).fst.voices) ∧
        (∀ v ∈ (deleteVoice gw voiceId s).fst.voices, v.id ≠ voiceId) ∧
        (s.voices.countP (fun v => v.id == voiceId) = 1 →
          (deleteVoice gw voiceId s).fst.voices.length + 1 = s.voices.length) ∧
        (∀ v, s.selectedVoice = some v → v.id = voiceId →
          (deleteVoice gw voiceId s).fst.selectedVoice = none) ∧
        (∀ v, s.selectedVoice = some v → v.id ≠ voiceId →
          (deleteVoice gw voiceId s).fst.selectedVoice = s.selectedVoice) ∧
        (deleteVoice gw voiceId s).snd = Except.ok ())) ∧
    (∀ e, gw = Except.error e → deleteVoice gw voiceId s = (s, Except.error e)) := by
  refine ⟨?_, ?_⟩
  · intro u h
    subst h
    cases u
    obtain ⟨voices, sel, load, err⟩ := s
    have hv : (deleteVoice (Except.ok ()) voiceId ⟨voices, sel, load, err⟩).fst.voices
        = voices.filter (fun v => v.id != voiceId) := by
      cases sel with
      | none => rfl
      | some v =>
          by_cases hvid : (v.id == voiceId) = true
          · simp [deleteVoice, hvid]
          · simp [deleteVoice, hvid]
    have hsnd : (deleteVoice (Except.ok ()) voiceId ⟨voices, sel, load, err⟩).snd
        = Except.ok () := by
      cases sel with
      | none => rfl
      | some v =>
          by_cases hvid : (v.id == voiceId) = true
          · simp [deleteVoice, hvid]
          · simp [deleteVoice, hvid]
    refine ⟨?_, ?_, ?_, ?_, ?_, ?_, hsnd⟩
    · rw [hv]
      exact List.filter_sublist voices
    · intro v hm hne
      rw [hv]
      refine List.mem_filter.mpr ⟨hm, ?_⟩
      simp [hne]
    · intro v hm
      rw [hv] at hm
      have hb := (List.mem_filter.mp hm).2
      simpa using hb
    · intro hc
      rw [hv]
      exact filter_ne_length_of_countP_eq_one voices voiceId hc
    · intro v hsel hvid
      have hsel' : sel = some v := hsel
      subst hsel'
      simp [deleteVoice, hvid]
    · intro v hsel hvid
      have hsel' : sel = some v := hsel
      subst hsel'
      simp [deleteVoice, hvid]
  · intro e h
    subst h
    rfl

/-- Witness for C4: deleting the selected voice `v1` from a concrete
two-voice state removes exactly one entry, clears the selection and
succeeds. -/
theorem deleteVoice_spec_witness :
    ((deleteVoice (Except.ok ()) "v1" sampleVoiceState).fst.voices.length + 1 =
        sampleVoiceState.voices.length ∧
      (deleteVoice (Except.ok ()) "v1" sampleVoiceState).fst.selectedVoice = none ∧
      (deleteVoice (Except.ok ()) "v1" sampleVoiceState).snd = Except.ok ()) ∧
    deleteVoice (Except.error { response := none, message := some "boom" }) "v1"
        sampleVoiceState =
      (sampleVoiceState, Except.error { response := none, message := some "boom" }) :=
  ⟨⟨((deleteVoice_spec (Except.ok ()) "v1" sampleVoiceState).1 () rfl).2.2.2.1 (by decide),
    ((deleteVoice_spec (Except.ok ()) "v1" sampleVoiceState).1 () rfl).2.2.2.2.1
      sampleVoice rfl rfl,
    ((deleteVoice_spec (Except.ok ()) "v1" sampleVoiceState).1 () rfl).2.2.2.2.2.2⟩,
   (deleteVoice_spec (Except.error { response := none, message := some "boom" }) "v1"
      sampleVoiceState).2 { response := none, message := some "boom" } rfl⟩
